import Mathlib

/-!
Verification development for the renamed-sdk Rust client library.

The definitions below are a shallow embedding of the SDK sources:
- `src/sdks/rust/src/error.rs` (error taxonomy and HTTP-status classification),
- `src/sdks/rust/src/client.rs` (URL resolution, API-key masking, the retrying
  request executor `execute_request`),
- `src/sdks/rust/src/async_job.rs` (the job `status` check and the `wait`
  polling loop),
- `src/sdks/rust/src/models.rs` (job status snapshot data model).

Rust strings are modelled as `List Char`; machine integers (`u16`, `u32`,
`u64` millisecond counts) are modelled as `Nat` (no computation in the claims
comes near a width bound: the delay computation `100 * (1 << attempt)` is
performed on `u64` and does not overflow for any attempt index below 57, and
retry budgets are small). Effects are made explicit: the sequence of network
attempt outcomes is passed in as a function from the attempt index, JSON
parsing is passed in as an oracle function, and each operation returns a trace
recording its result together with the observable events (attempt counts,
sleep durations, progress-callback arguments).
-/

namespace Renamed

/-- Stand-in for `serde_json::Value` as it occurs in error detail maps. The
classification logic never inspects these values, it only carries them
through, so scalar constructors suffice for the embedding. -/
inductive JsonValue where
  | null
  | bool (b : Bool)
  | num (n : Int)
  | str (s : List Char)
deriving DecidableEq

/-- Embedding of `ApiErrorResponse` (error.rs lines 117-124): the parsed form
of an API error payload. `extra` models the flattened
`HashMap<String, serde_json::Value>` as an association list. -/
structure ApiErrorResponse where
  error : Option (List Char)
  retry_after : Option Nat
  extra : List (List Char × JsonValue)
deriving DecidableEq

/-- Embedding of the `RenamedError` enum (error.rs lines 14-114). The
`source` fields of `Network`, `File` and `Serialization` (underlying
transport / I-O / JSON errors) are dropped: they carry no information the
claims mention. -/
inductive RenamedError where
  | Authentication (message : List Char) (status_code : Nat)
  | InsufficientCredits (message : List Char) (status_code : Nat)
  | RateLimit (message : List Char) (status_code : Nat) (retry_after : Option Nat)
  | Validation (message : List Char) (status_code : Nat)
      (details : Option (List (List Char × JsonValue)))
  | Network (message : List Char)
  | Timeout (message : List Char)
  | Job (message : List Char) (job_id : Option (List Char))
  | Api (message : List Char) (status_code : Nat) (code : List Char)
      (details : Option (List (List Char × JsonValue)))
  | File (message : List Char)
  | Serialization (message : List Char)
deriving DecidableEq

/-- The `message` computed by `from_http_status` (error.rs lines 132-135):
the `error` field of the parsed body if present, else `format!("HTTP {}", status)`. -/
def errorMessageOf (status : Nat) (body : Option ApiErrorResponse) : List Char :=
  (body.bind ApiErrorResponse.error).getD (("HTTP ").toList ++ Nat.toDigits 10 status)

/-- The `details` computed by `from_http_status` (error.rs lines 137-140):
the extra fields of the parsed body, filtered out when empty. -/
def errorDetailsOf (body : Option ApiErrorResponse) : Option (List (List Char × JsonValue)) :=
  match body with
  | none => none
  | some r => if r.extra.isEmpty then none else some r.extra

/-- Embedding of `RenamedError::from_http_status` (error.rs lines 128-168).
The `body : Option ApiErrorResponse` argument is the result of
`body.and_then(|b| serde_json::from_str(b).ok())`: `none` covers both a
missing body and an unparseable one. The Rust `match` on the status code is
rendered as an if-chain. -/
def from_http_status (status : Nat) (body : Option ApiErrorResponse) : RenamedError :=
  let message := errorMessageOf status body
  if status = 401 then
    RenamedError.Authentication message status
  else if status = 402 then
    RenamedError.InsufficientCredits message status
  else if status = 400 ∨ status = 422 then
    RenamedError.Validation message status (errorDetailsOf body)
  else if status = 429 then
    RenamedError.RateLimit message status (body.bind ApiErrorResponse.retry_after)
  else
    RenamedError.Api message status (("API_ERROR").toList) (errorDetailsOf body)

/-- Transport-level failure of a single send, as distinguished by
`RenamedError::from_reqwest` (error.rs lines 171-187): a timeout, a
connection failure, or any other transport error with its rendered message. -/
inductive TransportFailure where
  | timeout
  | connect
  | other (message : List Char)
deriving DecidableEq

/-- Embedding of `RenamedError::from_reqwest` (error.rs lines 171-187). -/
def from_reqwest : TransportFailure → RenamedError
  | TransportFailure.timeout => RenamedError.Timeout (("Request timed out").toList)
  | TransportFailure.connect => RenamedError.Network (("Connection failed").toList)
  | TransportFailure.other message => RenamedError.Network message

/-- Embedding of `RenamedError::job_error` (error.rs lines 190-195). -/
def job_error (message : List Char) (job_id : Option (List Char)) : RenamedError :=
  RenamedError.Job message job_id

/-- Model of `str::trim_start_matches('/')`: drop every leading slash. -/
def trimStartSlashes : List Char → List Char
  | [] => []
  | c :: cs => if c = '/' then trimStartSlashes cs else c :: cs

/-- Model of `str::trim_end_matches('/')`: drop every trailing slash. -/
def trimEndSlashes (s : List Char) : List Char :=
  (trimStartSlashes s.reverse).reverse

/-- The absolute-URL test in `build_url` (client.rs line 198):
`path.starts_with("http://") || path.starts_with("https://")`. -/
def isAbsoluteUrl (path : List Char) : Bool :=
  ("http://").toList.isPrefixOf path || ("https://").toList.isPrefixOf path

/-- Embedding of the `RenamedClient` configuration state (client.rs lines
162-169); the reqwest transport handle is not part of the embedding. -/
structure RenamedClient where
  api_key : List Char
  base_url : List Char
  max_retries : Nat
  debug : Bool
deriving DecidableEq

/-- Embedding of `RenamedClientBuilder::base_url` (client.rs lines 75-78):
the stored base URL is the argument with trailing slashes trimmed. Only the
effect on the eventual client configuration is modelled. -/
def RenamedClient.with_base_url (c : RenamedClient) (url : List Char) : RenamedClient :=
  { c with base_url := trimEndSlashes url }

/-- Embedding of `RenamedClient::build_url` (client.rs lines 197-203). -/
def RenamedClient.build_url (c : RenamedClient) (path : List Char) : List Char :=
  if isAbsoluteUrl path then path
  else c.base_url ++ '/' :: trimStartSlashes path

/-- Embedding of `RenamedClient::mask_api_key` (client.rs lines 208-216).
Rust slices the key by bytes; the embedding works per character, which
coincides on the ASCII keys the masking is meant for. -/
def RenamedClient.mask_api_key (c : RenamedClient) : List Char :=
  let key := c.api_key
  if key.length ≤ 7 then ("***").toList
  else key.take 3 ++ ("...").toList ++ key.drop (key.length - 4)

/-- Outcome of one send attempt, as the executor observes it: either a
transport-level failure (no response obtained) or a response with a known
status code and a body. Reading the body of a received response
(`response.text()`) is assumed to succeed; a body-read failure would also
terminate the retry loop (via the `?` on client.rs line 295), so no claim
depends on that case. -/
inductive AttemptOutcome where
  | transport (failure : TransportFailure)
  | response (status_code : Nat) (body : List Char)
deriving DecidableEq

/-- Whether an attempt outcome is a transport-level failure. -/
def AttemptOutcome.isTransport : AttemptOutcome → Bool
  | AttemptOutcome.transport _ => true
  | AttemptOutcome.response _ _ => false

/-- Observable trace of one `execute_request` call: the returned result, the
number of send attempts made, and the list of backoff sleep durations (in
milliseconds, in order). -/
structure ExecTrace where
  result : Except RenamedError (List Char)
  attempts : Nat
  sleeps : List Nat

/-- The retry loop of `execute_request` (client.rs lines 276-322), with the
environment made explicit: `outcomes i` is what sending the request on
attempt `i` produces, and `parseBody` is the JSON oracle feeding
`from_http_status`. `attempt` is the loop counter, `remaining` the number of
loop iterations left (`max_retries + 1 - attempt` at the entry point), and
`last_error` the `last_error` variable. The Rust delay `100 * (1 << attempt)`
milliseconds is written `100 * 2 ^ attempt`. The `request.try_clone()`
failure path (client.rs lines 277-280) is not modelled: the claims concern
requests that are cloneable for retry. -/
def executeLoop (outcomes : Nat → AttemptOutcome)
    (parseBody : List Char → Option ApiErrorResponse) (max_retries : Nat) :
    Nat → Nat → Option RenamedError → ExecTrace
  | _attempt, 0, last_error =>
      { result := Except.error
          (last_error.getD (RenamedError.Network (("Request failed after retries").toList))),
        attempts := 0, sleeps := [] }
  | attempt, remaining + 1, _last_error =>
      match outcomes attempt with
      | AttemptOutcome.response status_code body =>
          { result :=
              if 400 ≤ status_code then
                Except.error (from_http_status status_code (parseBody body))
              else Except.ok body,
            attempts := 1, sleeps := [] }
      | AttemptOutcome.transport f =>
          let rest := executeLoop outcomes parseBody max_retries (attempt + 1) remaining
              (some (from_reqwest f))
          { result := rest.result,
            attempts := rest.attempts + 1,
            sleeps :=
              if attempt < max_retries then 100 * 2 ^ attempt :: rest.sleeps
              else rest.sleeps }

/-- Embedding of `RenamedClient::execute_request` (client.rs lines 267-328):
run the retry loop `for attempt in 0..=max_retries` from attempt 0 with no
recorded error. -/
def RenamedClient.execute_request (c : RenamedClient) (outcomes : Nat → AttemptOutcome)
    (parseBody : List Char → Option ApiErrorResponse) : ExecTrace :=
  executeLoop outcomes parseBody c.max_retries 0 (c.max_retries + 1) none

/-- Embedding of the `JobStatus` enum (models.rs lines 146-157). -/
inductive JobStatus where
  | pending
  | processing
  | completed
  | failed
deriving DecidableEq

/-- Embedding of `JobStatus::is_in_progress` (models.rs lines 161-163). -/
def JobStatus.is_in_progress : JobStatus → Bool
  | JobStatus.pending => true
  | JobStatus.processing => true
  | JobStatus.completed => false
  | JobStatus.failed => false

/-- Embedding of `JobStatus::is_finished` (models.rs lines 166-168). -/
def JobStatus.is_finished : JobStatus → Bool
  | JobStatus.pending => false
  | JobStatus.processing => false
  | JobStatus.completed => true
  | JobStatus.failed => true

/-- Embedding of `SplitDocument` (models.rs lines 108-125). -/
structure SplitDocument where
  index : Nat
  filename : List Char
  pages : List Char
  download_url : List Char
  size : Int
deriving DecidableEq

/-- Embedding of `PdfSplitResult` (models.rs lines 128-139). -/
structure PdfSplitResult where
  original_filename : List Char
  documents : List SplitDocument
  total_pages : Nat
deriving DecidableEq

/-- Embedding of `JobStatusResponse` (models.rs lines 183-203): one status
snapshot as returned by the status endpoint. -/
structure JobStatusResponse where
  job_id : List Char
  status : JobStatus
  progress : Option Nat
  error : Option (List Char)
  result : Option PdfSplitResult
deriving DecidableEq

instance : Inhabited JobStatusResponse :=
  ⟨{ job_id := [], status := JobStatus.pending, progress := none,
     error := none, result := none }⟩

/-- Embedding of the `AsyncJob` configuration state (async_job.rs lines
51-69); the transport handle is not part of the embedding, and
`poll_interval` is in milliseconds. -/
structure AsyncJob where
  api_key : List Char
  status_url : List Char
  poll_interval : Nat
  max_attempts : Nat
  debug : Bool
deriving DecidableEq

/-- Embedding of `AsyncJob::with_poll_interval` (async_job.rs lines 98-101). -/
def AsyncJob.with_poll_interval (job : AsyncJob) (interval : Nat) : AsyncJob :=
  { job with poll_interval := interval }

/-- Embedding of `AsyncJob::with_max_attempts` (async_job.rs lines 106-109);
the `u32` argument admits 0. -/
def AsyncJob.with_max_attempts (job : AsyncJob) (attempts : Nat) : AsyncJob :=
  { job with max_attempts := attempts }

/-- Observable trace of one `status()` call: its result and the number of
send attempts it performed against the status endpoint. -/
structure StatusTrace where
  result : Except RenamedError JobStatusResponse
  attempts : Nat

/-- Embedding of `AsyncJob::status` (async_job.rs lines 121-158): a single
GET of the status URL with no retry loop. `outcomes i` is what the i-th send
of the status request would produce, `parseBody` feeds `from_http_status`,
and `parseSnap` is the oracle for `serde_json::from_str::<JobStatusResponse>`
(whose failure message, an environment-dependent serde rendering, is modelled
by a fixed placeholder). Exactly `outcomes 0` is consulted. -/
def AsyncJob.status (_job : AsyncJob) (outcomes : Nat → AttemptOutcome)
    (parseBody : List Char → Option ApiErrorResponse)
    (parseSnap : List Char → Option JobStatusResponse) : StatusTrace :=
  match outcomes 0 with
  | AttemptOutcome.transport f =>
      { result := Except.error (from_reqwest f), attempts := 1 }
  | AttemptOutcome.response status_code body =>
      if 400 ≤ status_code then
        { result := Except.error (from_http_status status_code (parseBody body)),
          attempts := 1 }
      else
        match parseSnap body with
        | some snap => { result := Except.ok snap, attempts := 1 }
        | none =>
            { result := Except.error
                (RenamedError.Serialization (("invalid job status body").toList)),
              attempts := 1 }

/-- Modelled from the spec: section 4.2 states that `status()` "performs
exactly one status check via RequestExecutor against the job status
endpoint", i.e. one logical check that inherits the transport-retry loop of
`execute_request`. The repository source of `AsyncJob::status` does not go
through `execute_request`; this definition renders the spec wording so the
two can be compared. -/
def statusViaRequestExecutor (c : RenamedClient) (outcomes : Nat → AttemptOutcome)
    (parseBody : List Char → Option ApiErrorResponse)
    (parseSnap : List Char → Option JobStatusResponse) : StatusTrace :=
  let t := c.execute_request outcomes parseBody
  { attempts := t.attempts,
    result :=
      match t.result with
      | Except.error e => Except.error e
      | Except.ok body =>
          match parseSnap body with
          | some snap => Except.ok snap
          | none =>
              Except.error
                (RenamedError.Serialization (("invalid job status body").toList)) }

/-- Observable trace of one `wait()` call: the returned result, the number of
`status()` calls made, the snapshots passed (in order) to the progress
callback when one is supplied (when no callback is supplied the list still
records the would-be arguments; control flow does not depend on it), and the
number of `poll_interval` sleeps performed. -/
structure WaitTrace where
  result : Except RenamedError PdfSplitResult
  statusChecks : Nat
  callbackArgs : List JobStatusResponse
  sleeps : Nat

/-- The polling loop of `wait` (async_job.rs lines 195-228), with the results
of successive `status()` calls made explicit: `statusResults i` is what the
i-th status check returns. `attempt` is the loop counter and `remaining` the
number of iterations left (`max_attempts` at the entry point). -/
def waitLoop (statusResults : Nat → Except RenamedError JobStatusResponse) :
    Nat → Nat → WaitTrace
  | _attempt, 0 =>
      { result := Except.error (job_error (("Job polling timeout exceeded").toList) none),
        statusChecks := 0, callbackArgs := [], sleeps := 0 }
  | attempt, remaining + 1 =>
      match statusResults attempt with
      | Except.error e =>
          { result := Except.error e, statusChecks := 1, callbackArgs := [], sleeps := 0 }
      | Except.ok st =>
          if st.status = JobStatus.completed then
            { result :=
                match st.result with
                | some res => Except.ok res
                | none =>
                    Except.error
                      (job_error (("Job completed but no result returned").toList)
                        (some st.job_id)),
              statusChecks := 1, callbackArgs := [st], sleeps := 0 }
          else if st.status = JobStatus.failed then
            { result :=
                Except.error
                  (job_error (st.error.getD (("Job failed").toList)) (some st.job_id)),
              statusChecks := 1, callbackArgs := [st], sleeps := 0 }
          else
            let rest := waitLoop statusResults (attempt + 1) remaining
            { result := rest.result,
              statusChecks := rest.statusChecks + 1,
              callbackArgs := st :: rest.callbackArgs,
              sleeps := rest.sleeps + 1 }

/-- Embedding of `AsyncJob::wait` (async_job.rs lines 194-229): run the
polling loop `for _attempt in 0..max_attempts`. -/
def AsyncJob.wait (job : AsyncJob)
    (statusResults : Nat → Except RenamedError JobStatusResponse) : WaitTrace :=
  waitLoop statusResults 0 job.max_attempts

/-- Whether a status-call result is a successful snapshot whose status is
still in progress (`Pending` or `Processing`). -/
def inProgressOk : Except RenamedError JobStatusResponse → Bool
  | Except.ok st => st.status.is_in_progress
  | Except.error _ => false

theorem executeLoop_response_step (outcomes : Nat → AttemptOutcome)
    (parseBody : List Char → Option ApiErrorResponse)
    (max_retries attempt remaining : Nat) (e : Option RenamedError)
    (s : Nat) (b : List Char)
    (hout : outcomes attempt = AttemptOutcome.response s b) :
    executeLoop outcomes parseBody max_retries attempt (remaining + 1) e =
      { result :=
          if 400 ≤ s then Except.error (from_http_status s (parseBody b))
          else Except.ok b,
        attempts := 1, sleeps := [] } := by
  rw [executeLoop, hout]

theorem executeLoop_transport_step (outcomes : Nat → AttemptOutcome)
    (parseBody : List Char → Option ApiErrorResponse)
    (max_retries attempt remaining : Nat) (e : Option RenamedError)
    (f : TransportFailure)
    (hout : outcomes attempt = AttemptOutcome.transport f) :
    executeLoop outcomes parseBody max_retries attempt (remaining + 1) e =
      { result := (executeLoop outcomes parseBody max_retries (attempt + 1) remaining
            (some (from_reqwest f))).result,
        attempts := (executeLoop outcomes parseBody max_retries (attempt + 1) remaining
            (some (from_reqwest f))).attempts + 1,
        sleeps :=
          if attempt < max_retries then
            100 * 2 ^ attempt :: (executeLoop outcomes parseBody max_retries (attempt + 1)
              remaining (some (from_reqwest f))).sleeps
          else
            (executeLoop outcomes parseBody max_retries (attempt + 1) remaining
              (some (from_reqwest f))).sleeps } := by
  rw [executeLoop, hout]

theorem executeLoop_all_transport (outcomes : Nat → AttemptOutcome)
    (parseBody : List Char → Option ApiErrorResponse) (max_retries : Nat)
    (h : ∀ i, (outcomes i).isTransport = true) :
    ∀ (r attempt : Nat) (e : Option RenamedError), attempt + r = max_retries + 1 →
      (executeLoop outcomes parseBody max_retries attempt r e).attempts = r ∧
      (executeLoop outcomes parseBody max_retries attempt r e).sleeps
        = (List.range' attempt (r - 1)).map (fun k => 100 * 2 ^ k) := by
  intro r
  induction r with
  | zero =>
      intro attempt e _
      simp [executeLoop]
  | succ n ih =>
      intro attempt e hsum
      have ht := h attempt
      cases hout : outcomes attempt with
      | response s b => simp [AttemptOutcome.isTransport, hout] at ht
      | transport f =>
          obtain ⟨iha, ihs⟩ := ih (attempt + 1) (some (from_reqwest f)) (by omega)
          rw [executeLoop_transport_step outcomes parseBody max_retries attempt n e f hout]
          cases n with
          | zero =>
              have hge : ¬ attempt < max_retries := by omega
              refine ⟨?_, ?_⟩
              · simpa using iha
              · simp only [if_neg hge]
                rw [ihs]
                simp [List.range']
          | succ m =>
              have hlt : attempt < max_retries := by omega
              refine ⟨?_, ?_⟩
              · simpa using iha
              · simp only [if_pos hlt]
                rw [ihs]
                simp [List.range']

theorem executeLoop_first_response (outcomes : Nat → AttemptOutcome)
    (parseBody : List Char → Option ApiErrorResponse) (max_retries : Nat)
    (s : Nat) (b : List Char) :
    ∀ (j a r : Nat) (e : Option RenamedError),
      (∀ i, i < j → (outcomes (a + i)).isTransport = true) →
      outcomes (a + j) = AttemptOutcome.response s b →
      j < r →
      (executeLoop outcomes parseBody max_retries a r e).attempts = j + 1 ∧
      (executeLoop outcomes parseBody max_retries a r e).result
        = (if 400 ≤ s then Except.error (from_http_status s (parseBody b))
           else Except.ok b) := by
  intro j
  induction j with
  | zero =>
      intro a r e _ hresp hlt
      obtain ⟨r2, rfl⟩ : ∃ r2, r = r2 + 1 := ⟨r - 1, by omega⟩
      rw [Nat.add_zero] at hresp
      rw [executeLoop_response_step outcomes parseBody max_retries a r2 e s b hresp]
      exact ⟨rfl, rfl⟩
  | succ m ih =>
      intro a r e hpre hresp hlt
      obtain ⟨r2, rfl⟩ : ∃ r2, r = r2 + 1 := ⟨r - 1, by omega⟩
      have ht := hpre 0 (Nat.succ_pos m)
      rw [Nat.add_zero] at ht
      cases hout : outcomes a with
      | response s2 b2 => simp [AttemptOutcome.isTransport, hout] at ht
      | transport f =>
          have hpre2 : ∀ i, i < m → (outcomes (a + 1 + i)).isTransport = true := by
            intro i hi
            have := hpre (i + 1) (by omega)
            rwa [show a + (i + 1) = a + 1 + i by omega] at this
          have hresp2 : outcomes (a + 1 + m) = AttemptOutcome.response s b := by
            rwa [show a + 1 + m = a + (m + 1) by omega]
          obtain ⟨iha, ihr⟩ := ih (a + 1) r2 (some (from_reqwest f)) hpre2 hresp2 (by omega)
          rw [executeLoop_transport_step outcomes parseBody max_retries a r2 e f hout]
          refine ⟨?_, ?_⟩
          · simpa using iha
          · exact ihr

/-- Claim C1: in every execution of `execute_request` in which every attempt
fails with a transient transport failure, exactly `max_retries + 1` send
attempts are made, and the sleep before retry k (1-indexed, k = 1 ..
max_retries) lasts `100 * 2 ^ (k - 1)` milliseconds (100ms, 200ms, 400ms,
...); in particular with `max_retries = 0` exactly one attempt is made and no
sleep occurs. -/
theorem C1_execute_request_retry_schedule (c : RenamedClient)
    (outcomes : Nat → AttemptOutcome)
    (parseBody : List Char → Option ApiErrorResponse)
    (h : ∀ i, (outcomes i).isTransport = true) :
    (c.execute_request outcomes parseBody).attempts = c.max_retries + 1 ∧
    (c.execute_request outcomes parseBody).sleeps
      = (List.range c.max_retries).map (fun k => 100 * 2 ^ k) ∧
    (∀ k, 1 ≤ k → k ≤ c.max_retries →
      (c.execute_request outcomes parseBody).sleeps[k - 1]? = some (100 * 2 ^ (k - 1))) ∧
    (c.max_retries = 0 →
      (c.execute_request outcomes parseBody).attempts = 1 ∧
      (c.execute_request outcomes parseBody).sleeps = []) := by
  obtain ⟨ha, hs⟩ := executeLoop_all_transport outcomes parseBody c.max_retries h
    (c.max_retries + 1) 0 none (by omega)
  simp only [Nat.add_sub_cancel] at hs
  rw [← List.range_eq_range'] at hs
  simp only [RenamedClient.execute_request]
  refine ⟨ha, hs, ?_, ?_⟩
  · intro k hk1 hk2
    rw [hs]
    have hk : k - 1 < c.max_retries := by omega
    simp [List.getElem?_map, List.getElem?_range, hk]
  · intro h0
    rw [ha, hs, h0]
    simp

/-- Witness for C1: with a configured retry budget of 2 and every attempt a
connection failure, exactly 3 attempts are made and the sleeps are 100ms then
200ms. -/
theorem C1_execute_request_retry_schedule_witness :
    (RenamedClient.execute_request
        { api_key := ("k").toList, base_url := [], max_retries := 2, debug := false }
        (fun _ => AttemptOutcome.transport TransportFailure.connect)
        (fun _ => none)).attempts = 3 ∧
    (RenamedClient.execute_request
        { api_key := ("k").toList, base_url := [], max_retries := 2, debug := false }
        (fun _ => AttemptOutcome.transport TransportFailure.connect)
        (fun _ => none)).sleeps = [100, 200] := by
  have h := C1_execute_request_retry_schedule
      { api_key := ("k").toList, base_url := [], max_retries := 2, debug := false }
      (fun _ => AttemptOutcome.transport TransportFailure.connect)
      (fun _ => none) (fun _ => rfl)
  refine ⟨h.1, ?_⟩
  rw [h.2.1]
  rfl

/-- Claim C2: in every execution of `execute_request` in which some attempt
receives an HTTP response (status code known), the retry loop terminates at
that attempt regardless of the status code: `j + 1` attempts are made when
the first response arrives on attempt `j`, a status below 400 returns the
body as success, and a status of 400 or above (including 500) is classified
by `from_http_status` and returned as a terminal error, never retried. -/
theorem C2_response_terminates_loop (c : RenamedClient)
    (outcomes : Nat → AttemptOutcome)
    (parseBody : List Char → Option ApiErrorResponse)
    (j s : Nat) (b : List Char)
    (hpre : ∀ i, i < j → (outcomes i).isTransport = true)
    (hresp : outcomes j = AttemptOutcome.response s b)
    (hj : j ≤ c.max_retries) :
    (c.execute_request outcomes parseBody).attempts = j + 1 ∧
    (s < 400 → (c.execute_request outcomes parseBody).result = Except.ok b) ∧
    (400 ≤ s → (c.execute_request outcomes parseBody).result
        = Except.error (from_http_status s (parseBody b))) := by
  obtain ⟨ha, hr⟩ := executeLoop_first_response outcomes parseBody c.max_retries s b j 0
      (c.max_retries + 1) none
      (by intro i hi; simpa using hpre i hi)
      (by simpa using hresp)
      (by omega)
  simp only [RenamedClient.execute_request]
  refine ⟨ha, ?_, ?_⟩
  · intro hl
    rw [hr, if_neg (by omega)]
  · intro hg
    rw [hr, if_pos hg]

/-- Witness for C2: with a retry budget of 5, a connection failure on the
first attempt and a 500 response on the second, exactly 2 attempts are made
and the 500 is returned as a terminal generic API error (not retried). -/
theorem C2_response_terminates_loop_witness :
    (RenamedClient.execute_request
        { api_key := ("k").toList, base_url := [], max_retries := 5, debug := false }
        (fun i => if i = 0 then AttemptOutcome.transport TransportFailure.connect
                  else AttemptOutcome.response 500 (("oops").toList))
        (fun _ => none)).attempts = 2 ∧
    (RenamedClient.execute_request
        { api_key := ("k").toList, base_url := [], max_retries := 5, debug := false }
        (fun i => if i = 0 then AttemptOutcome.transport TransportFailure.connect
                  else AttemptOutcome.response 500 (("oops").toList))
        (fun _ => none)).result
      = Except.error
          (RenamedError.Api (("HTTP 500").toList) 500 (("API_ERROR").toList) none) := by
  have h := C2_response_terminates_loop
      { api_key := ("k").toList, base_url := [], max_retries := 5, debug := false }
      (fun i => if i = 0 then AttemptOutcome.transport TransportFailure.connect
                else AttemptOutcome.response 500 (("oops").toList))
      (fun _ => none) 1 500 (("oops").toList)
      (by intro i hi
          have hi0 : i = 0 := by omega
          subst hi0
          rfl)
      rfl
      (by decide)
  exact ⟨h.1, (h.2.2 (by omega)).trans rfl⟩

theorem waitLoop_error_step (statusResults : Nat → Except RenamedError JobStatusResponse)
    (attempt remaining : Nat) (e : RenamedError)
    (hst : statusResults attempt = Except.error e) :
    waitLoop statusResults attempt (remaining + 1) =
      { result := Except.error e, statusChecks := 1, callbackArgs := [], sleeps := 0 } := by
  rw [waitLoop, hst]

theorem waitLoop_completed_step (statusResults : Nat → Except RenamedError JobStatusResponse)
    (attempt remaining : Nat) (st : JobStatusResponse)
    (hst : statusResults attempt = Except.ok st)
    (hc : st.status = JobStatus.completed) :
    waitLoop statusResults attempt (remaining + 1) =
      { result :=
          match st.result with
          | some res => Except.ok res
          | none =>
              Except.error
                (job_error (("Job completed but no result returned").toList)
                  (some st.job_id)),
        statusChecks := 1, callbackArgs := [st], sleeps := 0 } := by
  simp [waitLoop, hst, hc]

theorem waitLoop_failed_step (statusResults : Nat → Except RenamedError JobStatusResponse)
    (attempt remaining : Nat) (st : JobStatusResponse)
    (hst : statusResults attempt = Except.ok st)
    (hf : st.status = JobStatus.failed) :
    waitLoop statusResults attempt (remaining + 1) =
      { result :=
          Except.error
            (job_error (st.error.getD (("Job failed").toList)) (some st.job_id)),
        statusChecks := 1, callbackArgs := [st], sleeps := 0 } := by
  simp [waitLoop, hst, hf]

theorem waitLoop_progress_step (statusResults : Nat → Except RenamedError JobStatusResponse)
    (attempt remaining : Nat) (st : JobStatusResponse)
    (hst : statusResults attempt = Except.ok st)
    (hp : st.status.is_in_progress = true) :
    waitLoop statusResults attempt (remaining + 1) =
      { result := (waitLoop statusResults (attempt + 1) remaining).result,
        statusChecks := (waitLoop statusResults (attempt + 1) remaining).statusChecks + 1,
        callbackArgs := st :: (waitLoop statusResults (attempt + 1) remaining).callbackArgs,
        sleeps := (waitLoop statusResults (attempt + 1) remaining).sleeps + 1 } := by
  have h1 : ¬ st.status = JobStatus.completed := by
    cases hq : st.status <;> simp_all [JobStatus.is_in_progress]
  have h2 : ¬ st.status = JobStatus.failed := by
    cases hq : st.status <;> simp_all [JobStatus.is_in_progress]
  simp [waitLoop, hst, h1, h2]

theorem waitLoop_terminal (statusResults : Nat → Except RenamedError JobStatusResponse)
    (st : JobStatusResponse) (hfin : st.status.is_finished = true) :
    ∀ (snaps : List JobStatusResponse) (a r : Nat),
      (∀ i, i < snaps.length → statusResults (a + i) = Except.ok (snaps.getD i default)) →
      (∀ q ∈ snaps, q.status.is_in_progress = true) →
      statusResults (a + snaps.length) = Except.ok st →
      snaps.length < r →
      waitLoop statusResults a r =
        { result :=
            if st.status = JobStatus.completed then
              match st.result with
              | some res => Except.ok res
              | none =>
                  Except.error
                    (job_error (("Job completed but no result returned").toList)
                      (some st.job_id))
            else
              Except.error
                (job_error (st.error.getD (("Job failed").toList)) (some st.job_id)),
          statusChecks := snaps.length + 1,
          callbackArgs := snaps ++ [st],
          sleeps := snaps.length } := by
  intro snaps
  induction snaps with
  | nil =>
      intro a r _ _ hterm hlt
      obtain ⟨r2, rfl⟩ : ∃ r2, r = r2 + 1 := ⟨r - 1, by omega⟩
      rw [show a + ([] : List JobStatusResponse).length = a by simp] at hterm
      by_cases hc : st.status = JobStatus.completed
      · rw [waitLoop_completed_step statusResults a r2 st hterm hc, if_pos hc]
        simp
      · have hf : st.status = JobStatus.failed := by
          cases hq : st.status <;> simp_all [JobStatus.is_finished]
        rw [waitLoop_failed_step statusResults a r2 st hterm hf, if_neg hc]
        simp
  | cons s rest ih =>
      intro a r h1 h2 hterm hlt
      obtain ⟨r2, rfl⟩ : ∃ r2, r = r2 + 1 := ⟨r - 1, by omega⟩
      have hs0 : statusResults a = Except.ok s := by simpa using h1 0 (by simp)
      have hp : s.status.is_in_progress = true := h2 s (by simp)
      rw [waitLoop_progress_step statusResults a r2 s hs0 hp]
      have h1x : ∀ i, i < rest.length →
          statusResults (a + 1 + i) = Except.ok (rest.getD i default) := by
        intro i hi
        have := h1 (i + 1) (by simp; omega)
        rwa [show a + (i + 1) = a + 1 + i by omega] at this
      have h2x : ∀ q ∈ rest, q.status.is_in_progress = true :=
        fun q hq => h2 q (List.mem_cons_of_mem s hq)
      have htermx : statusResults (a + 1 + rest.length) = Except.ok st := by
        rwa [show a + (s :: rest).length = a + 1 + rest.length by simp; omega] at hterm
      have hltx : rest.length < r2 := by simp at hlt; omega
      rw [ih (a + 1) r2 h1x h2x htermx hltx]
      simp [List.length_cons]

theorem waitLoop_exhausts (statusResults : Nat → Except RenamedError JobStatusResponse) :
    ∀ (r a : Nat), (∀ i, i < r → inProgressOk (statusResults (a + i)) = true) →
      (waitLoop statusResults a r).result
          = Except.error (job_error (("Job polling timeout exceeded").toList) none) ∧
      (waitLoop statusResults a r).statusChecks = r ∧
      (waitLoop statusResults a r).sleeps = r ∧
      (waitLoop statusResults a r).callbackArgs.length = r := by
  intro r
  induction r with
  | zero =>
      intro a _
      exact ⟨rfl, rfl, rfl, rfl⟩
  | succ n ih =>
      intro a h
      have h0 := h 0 (by omega)
      rw [Nat.add_zero] at h0
      cases hst : statusResults a with
      | error e => simp [inProgressOk, hst] at h0
      | ok st =>
          have hp : st.status.is_in_progress = true := by
            rw [hst] at h0
            simpa [inProgressOk] using h0
          rw [waitLoop_progress_step statusResults a n st hst hp]
          obtain ⟨ihr, ihc, ihs, ihcb⟩ := ih (a + 1) (by
            intro i hi
            have := h (i + 1) (by omega)
            rwa [show a + (i + 1) = a + 1 + i by omega] at this)
          exact ⟨ihr, by simp [ihc], by simp [ihs], by simp [ihcb]⟩

theorem waitLoop_statusChecks_le (statusResults : Nat → Except RenamedError JobStatusResponse) :
    ∀ (r a : Nat), (waitLoop statusResults a r).statusChecks ≤ r := by
  intro r
  induction r with
  | zero =>
      intro a
      exact Nat.le_refl 0
  | succ n ih =>
      intro a
      cases hst : statusResults a with
      | error e =>
          rw [waitLoop_error_step statusResults a n e hst]
          show 1 ≤ n + 1
          omega
      | ok st =>
          by_cases hc : st.status = JobStatus.completed
          · rw [waitLoop_completed_step statusResults a n st hst hc]
            show 1 ≤ n + 1
            omega
          · by_cases hf : st.status = JobStatus.failed
            · rw [waitLoop_failed_step statusResults a n st hst hf]
              show 1 ≤ n + 1
              omega
            · have hp : st.status.is_in_progress = true := by
                cases hq : st.status <;> simp_all [JobStatus.is_in_progress]
              rw [waitLoop_progress_step statusResults a n st hst hp]
              have := ih (a + 1)
              simp only []
              omega

/-- Claim C3: for every status sequence [Pending, Processing, Completed with
result R] observed by `wait()` (with any poll interval), `wait()` returns R
after exactly 3 status checks, and a supplied progress callback is invoked
exactly 3 times, once after each check, with the snapshots in the order they
were received. -/
theorem C3_wait_three_snapshots (job : AsyncJob)
    (statusResults : Nat → Except RenamedError JobStatusResponse)
    (s0 s1 s2 : JobStatusResponse) (R : PdfSplitResult)
    (h0 : statusResults 0 = Except.ok s0) (hs0 : s0.status = JobStatus.pending)
    (h1 : statusResults 1 = Except.ok s1) (hs1 : s1.status = JobStatus.processing)
    (h2 : statusResults 2 = Except.ok s2) (hs2 : s2.status = JobStatus.completed)
    (hres : s2.result = some R)
    (hmax : 3 ≤ job.max_attempts) :
    (job.wait statusResults).result = Except.ok R ∧
    (job.wait statusResults).statusChecks = 3 ∧
    (job.wait statusResults).callbackArgs = [s0, s1, s2] := by
  have hfin : s2.status.is_finished = true := by rw [hs2]; rfl
  have ht := waitLoop_terminal statusResults s2 hfin [s0, s1] 0 job.max_attempts
      (by intro i hi
          simp only [List.length_cons, List.length_nil] at hi
          interval_cases i
          · simpa using h0
          · simpa using h1)
      (by intro q hq
          simp only [List.mem_cons, List.not_mem_nil, or_false] at hq
          rcases hq with rfl | rfl
          · rw [hs0]; rfl
          · rw [hs1]; rfl)
      (by simpa using h2)
      (by simp only [List.length_cons, List.length_nil]; omega)
  simp only [AsyncJob.wait]
  rw [ht]
  refine ⟨?_, rfl, rfl⟩
  simp [hs2, hres]

/-- Witness for C3: a concrete pending / processing / completed-with-result
sequence with a poll budget of 150 yields the embedded result after exactly
3 checks, delivering the three snapshots in order to the callback. -/
theorem C3_wait_three_snapshots_witness :
    (AsyncJob.wait
        { api_key := ("k").toList, status_url := ("u/j1").toList,
          poll_interval := 0, max_attempts := 150, debug := false }
        (fun i =>
          if i = 0 then
            Except.ok { job_id := ("j1").toList, status := JobStatus.pending,
                        progress := none, error := none, result := none }
          else if i = 1 then
            Except.ok { job_id := ("j1").toList, status := JobStatus.processing,
                        progress := some 50, error := none, result := none }
          else
            Except.ok { job_id := ("j1").toList, status := JobStatus.completed,
                        progress := some 100, error := none,
                        result := some { original_filename := ("a.pdf").toList,
                                         documents := [], total_pages := 3 } })).result
      = Except.ok { original_filename := ("a.pdf").toList, documents := [], total_pages := 3 } ∧
    (AsyncJob.wait
        { api_key := ("k").toList, status_url := ("u/j1").toList,
          poll_interval := 0, max_attempts := 150, debug := false }
        (fun i =>
          if i = 0 then
            Except.ok { job_id := ("j1").toList, status := JobStatus.pending,
                        progress := none, error := none, result := none }
          else if i = 1 then
            Except.ok { job_id := ("j1").toList, status := JobStatus.processing,
                        progress := some 50, error := none, result := none }
          else
            Except.ok { job_id := ("j1").toList, status := JobStatus.completed,
                        progress := some 100, error := none,
                        result := some { original_filename := ("a.pdf").toList,
                                         documents := [], total_pages := 3 } })).statusChecks
      = 3 := by
  have h := C3_wait_three_snapshots
      { api_key := ("k").toList, status_url := ("u/j1").toList,
        poll_interval := 0, max_attempts := 150, debug := false }
      (fun i =>
        if i = 0 then
          Except.ok { job_id := ("j1").toList, status := JobStatus.pending,
                      progress := none, error := none, result := none }
        else if i = 1 then
          Except.ok { job_id := ("j1").toList, status := JobStatus.processing,
                      progress := some 50, error := none, result := none }
        else
          Except.ok { job_id := ("j1").toList, status := JobStatus.completed,
                      progress := some 100, error := none,
                      result := some { original_filename := ("a.pdf").toList,
                                       documents := [], total_pages := 3 } })
      { job_id := ("j1").toList, status := JobStatus.pending,
        progress := none, error := none, result := none }
      { job_id := ("j1").toList, status := JobStatus.processing,
        progress := some 50, error := none, result := none }
      { job_id := ("j1").toList, status := JobStatus.completed,
        progress := some 100, error := none,
        result := some { original_filename := ("a.pdf").toList,
                         documents := [], total_pages := 3 } }
      { original_filename := ("a.pdf").toList, documents := [], total_pages := 3 }
      rfl rfl rfl rfl rfl rfl rfl (by decide)
  exact ⟨h.1, h.2.1⟩

/-- Claim C4: for every poll budget n and every status sequence that never
reaches a terminal status (always Pending or Processing), `wait()` performs
exactly n status checks, never an (n+1)-th, then returns the Job-kind
"Job polling timeout exceeded" error; and for any status sequence at all the
number of status checks never exceeds the budget. -/
theorem C4_wait_poll_budget (job : AsyncJob)
    (statusResults : Nat → Except RenamedError JobStatusResponse)
    (h : ∀ i, i < job.max_attempts → inProgressOk (statusResults i) = true) :
    (job.wait statusResults).statusChecks = job.max_attempts ∧
    (job.wait statusResults).result
        = Except.error (job_error (("Job polling timeout exceeded").toList) none) ∧
    ∀ (anyResults : Nat → Except RenamedError JobStatusResponse),
      (job.wait anyResults).statusChecks ≤ job.max_attempts := by
  obtain ⟨hr, hc, _, _⟩ := waitLoop_exhausts statusResults job.max_attempts 0
      (by intro i hi; simpa using h i hi)
  exact ⟨hc, hr, fun anyResults => waitLoop_statusChecks_le anyResults job.max_attempts 0⟩

/-- Witness for C4: with a poll budget of 3 and a status sequence that is
always Processing, exactly 3 checks are made and the timeout error is
returned. -/
theorem C4_wait_poll_budget_witness :
    (AsyncJob.wait
        { api_key := ("k").toList, status_url := ("u/j1").toList,
          poll_interval := 0, max_attempts := 3, debug := false }
        (fun _ =>
          Except.ok { job_id := ("j1").toList, status := JobStatus.processing,
                      progress := none, error := none, result := none })).statusChecks = 3 ∧
    (AsyncJob.wait
        { api_key := ("k").toList, status_url := ("u/j1").toList,
          poll_interval := 0, max_attempts := 3, debug := false }
        (fun _ =>
          Except.ok { job_id := ("j1").toList, status := JobStatus.processing,
                      progress := none, error := none, result := none })).result
      = Except.error (job_error (("Job polling timeout exceeded").toList) none) := by
  have h := C4_wait_poll_budget
      { api_key := ("k").toList, status_url := ("u/j1").toList,
        poll_interval := 0, max_attempts := 3, debug := false }
      (fun _ =>
        Except.ok { job_id := ("j1").toList, status := JobStatus.processing,
                    progress := none, error := none, result := none })
      (fun _ _ => rfl)
  exact ⟨h.1, h.2.1⟩

/-- Claim C6: for every poll in `wait()` that returns a terminal snapshot
after a prefix of in-progress snapshots: Completed with a result returns the
result; Completed without a result returns a Job-kind error with the
distinct "Job completed but no result returned" message and the snapshot
job ID; Failed returns a Job-kind error carrying the snapshot error message
(or the default "Job failed") and the snapshot job ID. The
completed-without-result message differs from the failure default and from
the timeout message. -/
theorem C6_wait_terminal_snapshot (job : AsyncJob)
    (statusResults : Nat → Except RenamedError JobStatusResponse)
    (snaps : List JobStatusResponse) (st : JobStatusResponse)
    (h1 : ∀ i, i < snaps.length → statusResults i = Except.ok (snaps.getD i default))
    (h2 : ∀ q ∈ snaps, q.status.is_in_progress = true)
    (h3 : statusResults snaps.length = Except.ok st)
    (h4 : snaps.length < job.max_attempts) :
    (st.status = JobStatus.completed → ∀ res, st.result = some res →
       (job.wait statusResults).result = Except.ok res) ∧
    (st.status = JobStatus.completed → st.result = none →
       (job.wait statusResults).result
         = Except.error
             (job_error (("Job completed but no result returned").toList)
               (some st.job_id))) ∧
    (st.status = JobStatus.failed →
       (job.wait statusResults).result
         = Except.error
             (job_error (st.error.getD (("Job failed").toList)) (some st.job_id))) ∧
    ("Job completed but no result returned").toList ≠ ("Job failed").toList ∧
    ("Job completed but no result returned").toList
      ≠ ("Job polling timeout exceeded").toList := by
  have main : st.status.is_finished = true →
      (job.wait statusResults) =
        { result :=
            if st.status = JobStatus.completed then
              match st.result with
              | some res => Except.ok res
              | none =>
                  Except.error
                    (job_error (("Job completed but no result returned").toList)
                      (some st.job_id))
            else
              Except.error
                (job_error (st.error.getD (("Job failed").toList)) (some st.job_id)),
          statusChecks := snaps.length + 1,
          callbackArgs := snaps ++ [st],
          sleeps := snaps.length } := by
    intro hfin
    have ht := waitLoop_terminal statusResults st hfin snaps 0 job.max_attempts
        (by intro i hi; simpa using h1 i hi) h2 (by simpa using h3) h4
    simpa only [AsyncJob.wait] using ht
  refine ⟨?_, ?_, ?_, by decide, by decide⟩
  · intro hc res hres
    rw [main (by rw [hc]; rfl)]
    simp [hc, hres]
  · intro hc hres
    rw [main (by rw [hc]; rfl)]
    simp [hc, hres]
  · intro hf
    rw [main (by rw [hf]; rfl)]
    simp [hf]

/-- Witness for C6: a Failed snapshot with error "boom" and job ID "j1" as
the first poll yields the Job-kind error with message "boom" and job ID
"j1"; a Completed snapshot with no result yields the Job-kind
completed-without-result error with its job ID. -/
theorem C6_wait_terminal_snapshot_witness :
    (AsyncJob.wait
        { api_key := ("k").toList, status_url := ("u/j1").toList,
          poll_interval := 0, max_attempts := 5, debug := false }
        (fun _ =>
          Except.ok { job_id := ("j1").toList, status := JobStatus.failed,
                      progress := none, error := some (("boom").toList),
                      result := none })).result
      = Except.error (job_error (("boom").toList) (some (("j1").toList))) ∧
    (AsyncJob.wait
        { api_key := ("k").toList, status_url := ("u/j2").toList,
          poll_interval := 0, max_attempts := 5, debug := false }
        (fun _ =>
          Except.ok { job_id := ("j2").toList, status := JobStatus.completed,
                      progress := none, error := none, result := none })).result
      = Except.error
          (job_error (("Job completed but no result returned").toList)
            (some (("j2").toList))) := by
  have hfail := C6_wait_terminal_snapshot
      { api_key := ("k").toList, status_url := ("u/j1").toList,
        poll_interval := 0, max_attempts := 5, debug := false }
      (fun _ =>
        Except.ok { job_id := ("j1").toList, status := JobStatus.failed,
                    progress := none, error := some (("boom").toList),
                    result := none })
      [] { job_id := ("j1").toList, status := JobStatus.failed,
           progress := none, error := some (("boom").toList), result := none }
      (fun i hi => absurd hi (Nat.not_lt_zero i))
      (by intro q hq; simp at hq)
      rfl (by decide)
  have hnores := C6_wait_terminal_snapshot
      { api_key := ("k").toList, status_url := ("u/j2").toList,
        poll_interval := 0, max_attempts := 5, debug := false }
      (fun _ =>
        Except.ok { job_id := ("j2").toList, status := JobStatus.completed,
                    progress := none, error := none, result := none })
      [] { job_id := ("j2").toList, status := JobStatus.completed,
           progress := none, error := none, result := none }
      (fun i hi => absurd hi (Nat.not_lt_zero i))
      (by intro q hq; simp at hq)
      rfl (by decide)
  exact ⟨hfail.2.2.1 rfl, hnores.2.1 rfl rfl⟩

/-- Claim C10: with the poll budget set to 0 via `with_max_attempts(0)` (the
code accepts 0), `wait()` immediately returns the Job-kind "Job polling
timeout exceeded" error with no job ID, performing zero status checks, zero
progress-callback invocations, and zero sleeps. -/
theorem C10_wait_zero_budget (job : AsyncJob)
    (statusResults : Nat → Except RenamedError JobStatusResponse) :
    ((job.with_max_attempts 0).wait statusResults).result
        = Except.error (job_error (("Job polling timeout exceeded").toList) none) ∧
    ((job.with_max_attempts 0).wait statusResults).statusChecks = 0 ∧
    ((job.with_max_attempts 0).wait statusResults).callbackArgs = [] ∧
    ((job.with_max_attempts 0).wait statusResults).sleeps = 0 :=
  ⟨rfl, rfl, rfl, rfl⟩

/-- Claim C5 (amended): every call to `status()` performs exactly one send
attempt against the status endpoint (only the first attempt outcome is
consulted), classifying HTTP error statuses with the shared
`from_http_status` exactly as any other request; a transient transport
failure is surfaced immediately via `from_reqwest`, without the
request-level retry loop of `execute_request`. -/
theorem C5_status_single_attempt (job : AsyncJob)
    (outcomes : Nat → AttemptOutcome)
    (parseBody : List Char → Option ApiErrorResponse)
    (parseSnap : List Char → Option JobStatusResponse) :
    (job.status outcomes parseBody parseSnap).attempts = 1 ∧
    (∀ f, outcomes 0 = AttemptOutcome.transport f →
       (job.status outcomes parseBody parseSnap).result
         = Except.error (from_reqwest f)) ∧
    (∀ s b, outcomes 0 = AttemptOutcome.response s b → 400 ≤ s →
       (job.status outcomes parseBody parseSnap).result
         = Except.error (from_http_status s (parseBody b))) := by
  refine ⟨?_, ?_, ?_⟩
  · cases hout : outcomes 0 with
    | transport f => simp [AsyncJob.status, hout]
    | response s b =>
        by_cases hs : 400 ≤ s
        · simp [AsyncJob.status, hout, hs]
        · cases hsnap : parseSnap b <;> simp [AsyncJob.status, hout, hs, hsnap]
  · intro f hout
    simp [AsyncJob.status, hout]
  · intro s b hout hs
    simp [AsyncJob.status, hout, hs]

/-- Witness for the amended C5: a status check whose single send times out
makes exactly one attempt and returns the Timeout classification. -/
theorem C5_status_single_attempt_witness :
    (AsyncJob.status
        { api_key := ("k").toList, status_url := ("u/j1").toList,
          poll_interval := 0, max_attempts := 150, debug := false }
        (fun _ => AttemptOutcome.transport TransportFailure.timeout)
        (fun _ => none) (fun _ => none)).attempts = 1 ∧
    (AsyncJob.status
        { api_key := ("k").toList, status_url := ("u/j1").toList,
          poll_interval := 0, max_attempts := 150, debug := false }
        (fun _ => AttemptOutcome.transport TransportFailure.timeout)
        (fun _ => none) (fun _ => none)).result
      = Except.error (RenamedError.Timeout (("Request timed out").toList)) := by
  have h := C5_status_single_attempt
      { api_key := ("k").toList, status_url := ("u/j1").toList,
        poll_interval := 0, max_attempts := 150, debug := false }
      (fun _ => AttemptOutcome.transport TransportFailure.timeout)
      (fun _ => none) (fun _ => none)
  exact ⟨h.1, (h.2.1 TransportFailure.timeout rfl).trans rfl⟩

/-- Counterexample to claim C5 as stated: with a transient connection
failure on the first send and a 200 response on the second, the
spec-modelled RequestExecutor-backed status check (retry budget 2, see
`statusViaRequestExecutor`) retries and succeeds after 2 attempts, while the
source `status()` makes exactly one attempt and surfaces the transport
failure as a Network error without retrying, so a transient transport
failure during a status check is NOT retried under the request-level retry
policy. -/
theorem C5_status_counterexample :
    (AsyncJob.status
        { api_key := ("k").toList, status_url := ("u/j1").toList,
          poll_interval := 0, max_attempts := 150, debug := false }
        (fun i => if i = 0 then AttemptOutcome.transport TransportFailure.connect
                  else AttemptOutcome.response 200 (("ok").toList))
        (fun _ => none)
        (fun _ => some { job_id := ("j1").toList, status := JobStatus.processing,
                         progress := none, error := none, result := none })).attempts
      = 1 ∧
    (AsyncJob.status
        { api_key := ("k").toList, status_url := ("u/j1").toList,
          poll_interval := 0, max_attempts := 150, debug := false }
        (fun i => if i = 0 then AttemptOutcome.transport TransportFailure.connect
                  else AttemptOutcome.response 200 (("ok").toList))
        (fun _ => none)
        (fun _ => some { job_id := ("j1").toList, status := JobStatus.processing,
                         progress := none, error := none, result := none })).result
      = Except.error (RenamedError.Network (("Connection failed").toList)) ∧
    (statusViaRequestExecutor
        { api_key := ("k").toList, base_url := [], max_retries := 2, debug := false }
        (fun i => if i = 0 then AttemptOutcome.transport TransportFailure.connect
                  else AttemptOutcome.response 200 (("ok").toList))
        (fun _ => none)
        (fun _ => some { job_id := ("j1").toList, status := JobStatus.processing,
                         progress := none, error := none, result := none })).attempts
      = 2 ∧
    (statusViaRequestExecutor
        { api_key := ("k").toList, base_url := [], max_retries := 2, debug := false }
        (fun i => if i = 0 then AttemptOutcome.transport TransportFailure.connect
                  else AttemptOutcome.response 200 (("ok").toList))
        (fun _ => none)
        (fun _ => some { job_id := ("j1").toList, status := JobStatus.processing,
                         progress := none, error := none, result := none })).result
      = Except.ok { job_id := ("j1").toList, status := JobStatus.processing,
                    progress := none, error := none, result := none } :=
  ⟨rfl, rfl, rfl, rfl⟩

/-- Claim C7: for every HTTP status of 400 or above and every parsed
response body, `from_http_status` classifies 401 to Authentication, 402 to
InsufficientCredits, 400 and 422 to Validation carrying the extra response
fields as structured details, 429 to RateLimit carrying the body retryAfter
when present, and every other status of 400 or above (e.g. 503) to the
generic Api error. -/
theorem C7_from_http_status_classification (s : Nat) (body : Option ApiErrorResponse) :
    from_http_status 401 body
      = RenamedError.Authentication (errorMessageOf 401 body) 401 ∧
    from_http_status 402 body
      = RenamedError.InsufficientCredits (errorMessageOf 402 body) 402 ∧
    (s = 400 ∨ s = 422 →
      from_http_status s body
        = RenamedError.Validation (errorMessageOf s body) s (errorDetailsOf body)) ∧
    from_http_status 429 body
      = RenamedError.RateLimit (errorMessageOf 429 body) 429
          (body.bind ApiErrorResponse.retry_after) ∧
    (400 ≤ s → s ≠ 400 → s ≠ 401 → s ≠ 402 → s ≠ 422 → s ≠ 429 →
      from_http_status s body
        = RenamedError.Api (errorMessageOf s body) s (("API_ERROR").toList)
            (errorDetailsOf body)) := by
  refine ⟨rfl, rfl, ?_, rfl, ?_⟩
  · rintro (rfl | rfl) <;> rfl
  · intro _ h400 h401 h402 h422 h429
    simp [from_http_status, h400, h401, h402, h422, h429]

/-- Witness for C7: a 503 response with no parseable body is classified as
the generic Api error, and a 422 response with an error message and an extra
field is classified as Validation carrying that field as details. -/
theorem C7_from_http_status_classification_witness :
    from_http_status 503 none
      = RenamedError.Api (("HTTP 503").toList) 503 (("API_ERROR").toList) none ∧
    from_http_status 422
        (some { error := some (("bad").toList), retry_after := none,
                extra := [(("field").toList, JsonValue.str (("x").toList))] })
      = RenamedError.Validation (("bad").toList) 422
          (some [(("field").toList, JsonValue.str (("x").toList))]) := by
  have h1 := C7_from_http_status_classification 503 none
  have h2 := C7_from_http_status_classification 422
      (some { error := some (("bad").toList), retry_after := none,
              extra := [(("field").toList, JsonValue.str (("x").toList))] })
  refine ⟨?_, ?_⟩
  · exact (h1.2.2.2.2 (by decide) (by decide) (by decide) (by decide) (by decide)
      (by decide)).trans rfl
  · exact (h2.2.2.1 (Or.inr rfl)).trans rfl

theorem trimStartSlashes_cons_slash (p : List Char) :
    trimStartSlashes ('/' :: p) = trimStartSlashes p := by
  simp [trimStartSlashes]

theorem trimStartSlashes_of_head_ne (p : List Char) (h : p.head? ≠ some '/') :
    trimStartSlashes p = p := by
  cases p with
  | nil => rfl
  | cons c cs =>
      have hc : ¬ c = '/' := by
        intro hcc
        exact h (by rw [hcc]; rfl)
      simp [trimStartSlashes, hc]

theorem trimStartSlashes_head (s : List Char) :
    (trimStartSlashes s).head? ≠ some '/' := by
  induction s with
  | nil => simp [trimStartSlashes]
  | cons c cs ih =>
      by_cases hc : c = '/'
      · simpa [trimStartSlashes, hc] using ih
      · simp [trimStartSlashes, hc]

theorem getLast_trimEndSlashes (u : List Char) :
    (trimEndSlashes u).getLast? ≠ some '/' := by
  rw [trimEndSlashes, List.getLast?_reverse]
  exact trimStartSlashes_head u.reverse

/-- Claim C8: endpoint resolution is the identity on absolute URLs (paths
starting with http:// or https://), and for every relative path p against a
base configured through the builder (trailing slashes trimmed), resolving p
and resolving "/" ++ p yield the same URL; when p has no leading slash that
URL is the base, exactly one separating slash, then p, with no duplicated
slash since the stored base never ends in a slash. -/
theorem C8_build_url_resolution (c : RenamedClient) (u p : List Char)
    (hc : c.base_url = trimEndSlashes u) :
    (isAbsoluteUrl p = true → c.build_url p = p) ∧
    (isAbsoluteUrl p = false → c.build_url ('/' :: p) = c.build_url p) ∧
    (isAbsoluteUrl p = false → p.head? ≠ some '/' →
       c.build_url p = c.base_url ++ '/' :: p ∧ c.base_url.getLast? ≠ some '/') := by
  refine ⟨?_, ?_, ?_⟩
  · intro habs
    simp [RenamedClient.build_url, habs]
  · intro hrel
    have habs2 : isAbsoluteUrl ('/' :: p) = false := rfl
    simp [RenamedClient.build_url, hrel, habs2, trimStartSlashes_cons_slash]
  · intro hrel hhead
    refine ⟨?_, ?_⟩
    · simp [RenamedClient.build_url, hrel, trimStartSlashes_of_head_ne p hhead]
    · rw [hc]
      exact getLast_trimEndSlashes u

/-- Witness for C8: against the configured base "https://a/b", both
"rename" and "/rename" resolve to "https://a/b/rename", and the absolute URL
"https://x/y" resolves to itself. -/
theorem C8_build_url_resolution_witness :
    RenamedClient.build_url
        { api_key := ("k").toList, base_url := trimEndSlashes (("https://a/b").toList),
          max_retries := 2, debug := false } (("rename").toList)
      = ("https://a/b/rename").toList ∧
    RenamedClient.build_url
        { api_key := ("k").toList, base_url := trimEndSlashes (("https://a/b").toList),
          max_retries := 2, debug := false } ('/' :: ("rename").toList)
      = ("https://a/b/rename").toList ∧
    RenamedClient.build_url
        { api_key := ("k").toList, base_url := trimEndSlashes (("https://a/b").toList),
          max_retries := 2, debug := false } (("https://x/y").toList)
      = ("https://x/y").toList := by
  have h := C8_build_url_resolution
      { api_key := ("k").toList, base_url := trimEndSlashes (("https://a/b").toList),
        max_retries := 2, debug := false }
      (("https://a/b").toList) (("rename").toList) rfl
  have habs := C8_build_url_resolution
      { api_key := ("k").toList, base_url := trimEndSlashes (("https://a/b").toList),
        max_retries := 2, debug := false }
      (("https://a/b").toList) (("https://x/y").toList) rfl
  have hfirst : RenamedClient.build_url
      { api_key := ("k").toList, base_url := trimEndSlashes (("https://a/b").toList),
        max_retries := 2, debug := false } (("rename").toList)
      = ("https://a/b/rename").toList :=
    ((h.2.2 (by decide) (by decide)).1).trans (by decide)
  exact ⟨hfirst, (h.2.1 (by decide)).trans hfirst, habs.1 (by decide)⟩

/-- Claim C9: the masking function renders a credential of length at most 7
as the fixed redacted marker "***", and any longer credential as its first 3
characters, the "..." separator, and its last 4 characters; the middle of
the credential does not influence the rendered output (any two credentials
agreeing in length, in their first 3 characters and in their last 4
characters mask identically). -/
theorem C9_mask_api_key_shape (c : RenamedClient) :
    (c.api_key.length ≤ 7 → c.mask_api_key = ("***").toList) ∧
    (7 < c.api_key.length →
       c.mask_api_key
         = c.api_key.take 3 ++ ("...").toList ++ c.api_key.drop (c.api_key.length - 4) ∧
       ∀ c2 : RenamedClient,
         c2.api_key.length = c.api_key.length →
         c2.api_key.take 3 = c.api_key.take 3 →
         c2.api_key.drop (c2.api_key.length - 4) = c.api_key.drop (c.api_key.length - 4) →
         c2.mask_api_key = c.mask_api_key) := by
  refine ⟨?_, ?_⟩
  · intro hle
    simp [RenamedClient.mask_api_key, hle]
  · intro hgt
    have hne : ¬ c.api_key.length ≤ 7 := by omega
    refine ⟨by simp [RenamedClient.mask_api_key, hne], ?_⟩
    intro c2 hlen htake hdrop
    have hne2 : ¬ c2.api_key.length ≤ 7 := by omega
    rw [hlen] at hdrop
    simp [RenamedClient.mask_api_key, hne, hne2, htake, hlen, hdrop]

/-- Witness for C9: the key "rt_1234567890abcdef" masks to "rt_...cdef" and
the 5-character key "short" masks to "***" (matching the source tests). -/
theorem C9_mask_api_key_shape_witness :
    RenamedClient.mask_api_key
        { api_key := ("rt_1234567890abcdef").toList, base_url := [],
          max_retries := 2, debug := false }
      = ("rt_...cdef").toList ∧
    RenamedClient.mask_api_key
        { api_key := ("short").toList, base_url := [],
          max_retries := 2, debug := false }
      = ("***").toList := by
  have h1 := C9_mask_api_key_shape
      { api_key := ("rt_1234567890abcdef").toList, base_url := [],
        max_retries := 2, debug := false }
  have h2 := C9_mask_api_key_shape
      { api_key := ("short").toList, base_url := [],
        max_retries := 2, debug := false }
  exact ⟨((h1.2 (by decide)).1).trans (by decide), h2.1 (by decide)⟩

end Renamed
